import Mathlib

/-!
Verification development for the legal-content data model
(`src/models/database_models.py`) and the knowledge-bank resource API
(evidenced by `src/tests/test_knowledge_bank_api.py`).

The data model is a declarative SQLAlchemy schema.  We embed each table as a
row structure (Integer → Nat, String/Text → String, Boolean → Bool,
DateTime → Nat, nullable columns → Option, JSON arrays → List), the database
as lists of rows, and the write operations as functions enforcing exactly the
constraints declared in the schema: primary keys, `unique=True` columns,
`UniqueConstraint`, `ForeignKey` existence, `ondelete='CASCADE'` chains, and
ORM relationship `cascade="all, delete-orphan"` on delete.
-/

/-- Error taxonomy for storage-level write operations: `conflict` for a
uniqueness-constraint violation, `fkViolation` for a missing foreign-key
target, `validation` for an out-of-set enum value, `notFound` for an update
of a missing row. -/
inductive DbErr where
  | conflict
  | fkViolation
  | validation
  | notFound
deriving DecidableEq, Repr

/-- `class LegalStatus(str, Enum)` from database_models.py lines 19-25. -/
inductive LegalStatus where
  | active
  | inactive
  | repealed
  | amended
  | pending
deriving DecidableEq, Repr

/-- String value of each `LegalStatus` member (the Python enum `.value`). -/
def LegalStatus.value : LegalStatus → String
  | .active => "active"
  | .inactive => "inactive"
  | .repealed => "repealed"
  | .amended => "amended"
  | .pending => "pending"

/-- Parse a raw string into a `LegalStatus`; `none` when the string is not
one of the five declared enum values (SQLAlchemy `Enum` validation). -/
def LegalStatus.ofValue (s : String) : Option LegalStatus :=
  if s == "active" then some .active
  else if s == "inactive" then some .inactive
  else if s == "repealed" then some .repealed
  else if s == "amended" then some .amended
  else if s == "pending" then some .pending
  else none

/-- `class DocumentType(str, Enum)` from database_models.py lines 28-37. -/
inductive DocumentType where
  | legislation
  | law
  | regulation
  | decree
  | resolution
  | directive
  | article
  | clause
deriving DecidableEq, Repr

/-- String value of each `DocumentType` member. -/
def DocumentType.value : DocumentType → String
  | .legislation => "legislation"
  | .law => "law"
  | .regulation => "regulation"
  | .decree => "decree"
  | .resolution => "resolution"
  | .directive => "directive"
  | .article => "article"
  | .clause => "clause"

/-- Parse a raw string into a `DocumentType`; `none` when out of set. -/
def DocumentType.ofValue (s : String) : Option DocumentType :=
  if s == "legislation" then some .legislation
  else if s == "law" then some .law
  else if s == "regulation" then some .regulation
  else if s == "decree" then some .decree
  else if s == "resolution" then some .resolution
  else if s == "directive" then some .directive
  else if s == "article" then some .article
  else if s == "clause" then some .clause
  else none

/-- `class Priority(str, Enum)` from database_models.py lines 40-44. -/
inductive Priority where
  | high
  | medium
  | low
deriving DecidableEq, Repr

/-- String value of each `Priority` member. -/
def Priority.value : Priority → String
  | .high => "high"
  | .medium => "medium"
  | .low => "low"

/-- Parse a raw string into a `Priority`; `none` when out of set. -/
def Priority.ofValue (s : String) : Option Priority :=
  if s == "high" then some .high
  else if s == "medium" then some .medium
  else if s == "low" then some .low
  else none

/-- `class Branch` (table `branches`), database_models.py lines 47-76.
`code` is declared `unique=True, nullable=False`. -/
structure BranchRow where
  id : Nat := 0
  code : String := ""
  name : String := ""
  description : Option String := none
  head_name : Option String := none
  email : Option String := none
  phone : Option String := none
  address : Option String := none
  is_active : Bool := true
  created_at : Nat := 0
  updated_at : Nat := 0
deriving DecidableEq, Repr

/-- `class Section` (table `sections`), database_models.py lines 79-106.
`branch_id` is `ForeignKey('branches.id', ondelete='CASCADE'), nullable=False`
and `UniqueConstraint('branch_id', 'code', name='uq_branch_section_code')`
makes the pair (branch_id, code) unique. -/
structure SectionRow where
  id : Nat := 0
  branch_id : Nat := 0
  code : String := ""
  name : String := ""
  description : Option String := none
  head_name : Option String := none
  email : Option String := none
  phone : Option String := none
  is_active : Bool := true
  created_at : Nat := 0
  updated_at : Nat := 0
deriving DecidableEq, Repr

/-- `class Legislation` (table `legislations`), database_models.py
lines 109-149.  `legislation_code` is `unique=True, nullable=False`; the
branch/section/parent foreign keys are nullable with no `ondelete` rule. -/
structure LegislationRow where
  id : Nat := 0
  legislation_code : String := ""
  title : String := ""
  description : Option String := none
  content : String := ""
  document_type : DocumentType := .legislation
  status : LegalStatus := .active
  issued_date : Nat := 0
  effective_date : Option Nat := none
  repeal_date : Option Nat := none
  issuing_authority : Option String := none
  category : Option String := none
  keywords : List String := []
  branch_id : Option Nat := none
  section_id : Option Nat := none
  parent_legislation_id : Option Nat := none
  version_number : Nat := 1
  amendment_notes : Option String := none
  created_by : Option String := none
  created_at : Nat := 0
  updated_at : Nat := 0
deriving DecidableEq, Repr

/-- `class Law` (table `laws`), database_models.py lines 152-195.
`law_code` is `unique=True, nullable=False`; the branch/section/legislation
foreign keys are nullable with no `ondelete` rule. -/
structure LawRow where
  id : Nat := 0
  law_code : String := ""
  title : String := ""
  description : Option String := none
  content : String := ""
  full_text : Option String := none
  status : LegalStatus := .active
  issued_date : Nat := 0
  effective_date : Option Nat := none
  repeal_date : Option Nat := none
  issuing_authority : Option String := none
  jurisdiction : Option String := none
  category : Option String := none
  articles_count : Option Nat := none
  keywords : List String := []
  branch_id : Option Nat := none
  section_id : Option Nat := none
  related_legislation_id : Option Nat := none
  version_number : Nat := 1
  amendment_notes : Option String := none
  created_by : Option String := none
  created_at : Nat := 0
  updated_at : Nat := 0
deriving DecidableEq, Repr

/-- `class Article` (table `articles`), database_models.py lines 198-220.
`law_id` is `ForeignKey('laws.id', ondelete='CASCADE'), nullable=False`.
`article_number` carries only a plain `Index`, no uniqueness constraint. -/
structure ArticleRow where
  id : Nat := 0
  law_id : Nat := 0
  article_number : Nat := 0
  title : String := ""
  content : String := ""
  notes : Option String := none
  created_at : Nat := 0
  updated_at : Nat := 0
deriving DecidableEq, Repr

/-- `class Clause` (table `clauses`), database_models.py lines 223-247.
`law_id` is a non-null cascade foreign key to laws; `article_id` is a
nullable cascade foreign key to articles. -/
structure ClauseRow where
  id : Nat := 0
  law_id : Nat := 0
  article_id : Option Nat := none
  clause_number : String := ""
  title : String := ""
  content : String := ""
  sub_clauses : List String := []
  notes : Option String := none
  created_at : Nat := 0
  updated_at : Nat := 0
deriving DecidableEq, Repr

/-- `class KnowledgeBase` (table `knowledge_base`), database_models.py
lines 250-285.  `related_legislation_ids` / `related_law_ids` are plain JSON
columns, not foreign keys. -/
structure KnowledgeBaseRow where
  id : Nat := 0
  title : String := ""
  content : String := ""
  summary : Option String := none
  category : String := ""
  subcategory : Option String := none
  tags : List String := []
  keywords : List String := []
  priority : Priority := .medium
  branch_id : Option Nat := none
  related_legislation_ids : List Nat := []
  related_law_ids : List Nat := []
  author : Option String := none
  source : Option String := none
  is_active : Bool := true
  view_count : Nat := 0
  created_by : Option String := none
  created_at : Nat := 0
  updated_at : Nat := 0
deriving DecidableEq, Repr

/-- `class News` (table `news`), database_models.py lines 288-326.
`slug` is `unique=True, nullable=True`: uniqueness applies only to non-null
slugs. -/
structure NewsRow where
  id : Nat := 0
  title : String := ""
  content : String := ""
  summary : Option String := none
  slug : Option String := none
  category : String := ""
  tags : List String := []
  priority : Priority := .medium
  branch_id : Option Nat := none
  related_legislation_ids : List Nat := []
  related_law_ids : List Nat := []
  featured_image_url : Option String := none
  author : Option String := none
  source : Option String := none
  is_published : Bool := false
  is_featured : Bool := false
  published_date : Option Nat := none
  view_count : Nat := 0
  created_by : Option String := none
  created_at : Nat := 0
  updated_at : Nat := 0
deriving DecidableEq, Repr

/-- `class LibraryItem` (table `library_items`), database_models.py
lines 329-366. -/
structure LibraryItemRow where
  id : Nat := 0
  title : String := ""
  description : Option String := none
  category : String := ""
  document_type : DocumentType := .legislation
  file_name : String := ""
  file_path : String := ""
  file_size : Option Nat := none
  file_mime_type : Option String := none
  tags : List String := []
  keywords : List String := []
  branch_id : Option Nat := none
  related_legislation_ids : List Nat := []
  related_law_ids : List Nat := []
  author : Option String := none
  source : Option String := none
  publication_date : Option Nat := none
  is_active : Bool := true
  download_count : Nat := 0
  created_by : Option String := none
  created_at : Nat := 0
  updated_at : Nat := 0
deriving DecidableEq, Repr

/-- The whole relational state: one list of rows per table declared in
database_models.py, plus the two association tables
`legislation_knowledge_base` and `law_knowledge_base` (lines 370-386), whose
rows are (owning id, knowledge_base id) pairs with a composite primary key
and cascade foreign keys on both columns. -/
structure DB where
  branches : List BranchRow := []
  sections : List SectionRow := []
  legislations : List LegislationRow := []
  laws : List LawRow := []
  articles : List ArticleRow := []
  clauses : List ClauseRow := []
  knowledge_base : List KnowledgeBaseRow := []
  news : List NewsRow := []
  library_items : List LibraryItemRow := []
  legislation_knowledge_base : List (Nat × Nat) := []
  law_knowledge_base : List (Nat × Nat) := []
deriving DecidableEq, Repr

/-- The empty database. -/
def emptyDB : DB := {}

/-! ## Write operations derived from the declared constraints

Each insert checks, in order: the integer primary key, the declared unique
constraints, then the declared foreign keys.  A violated uniqueness
constraint is a `conflict`; a missing foreign-key target is a
`fkViolation`.  On any error the function returns `.error` and no new state,
so the stored state is unchanged. -/

/-- True when the optional foreign-key value, if present, has a target among
the given ids (a nullable `ForeignKey` column accepts NULL). -/
def optFkOk (o : Option Nat) (ids : List Nat) : Bool :=
  match o with
  | none => true
  | some i => ids.contains i

/-- Insert into `branches`: primary key and the `unique=True` constraint on
`Branch.code` (database_models.py line 56). -/
def insertBranch (db : DB) (b : BranchRow) : Except DbErr DB :=
  if db.branches.any (fun x => x.id == b.id) then .error .conflict
  else if db.branches.any (fun x => x.code == b.code) then .error .conflict
  else .ok { db with branches := db.branches ++ [b] }

/-- Update the `code` of the branch with the given id; rejected with a
conflict when a different branch already holds that code. -/
def updateBranchCode (db : DB) (i : Nat) (c : String) : Except DbErr DB :=
  if db.branches.all (fun x => x.id != i) then .error .notFound
  else if db.branches.any (fun x => x.id != i && x.code == c) then .error .conflict
  else .ok { db with
    branches := db.branches.map (fun x => if x.id == i then { x with code := c } else x) }

/-- Insert into `sections`: primary key, the composite unique constraint
`uq_branch_section_code` on (branch_id, code) (database_models.py line 85),
and the non-null foreign key to `branches`. -/
def insertSection (db : DB) (s : SectionRow) : Except DbErr DB :=
  if db.sections.any (fun x => x.id == s.id) then .error .conflict
  else if db.sections.any (fun x => x.branch_id == s.branch_id && x.code == s.code) then
    .error .conflict
  else if db.branches.all (fun x => x.id != s.branch_id) then .error .fkViolation
  else .ok { db with sections := db.sections ++ [s] }

/-- Update the `code` of the section with the given id; rejected with a
conflict when a different section of the same branch already holds that
code. -/
def updateSectionCode (db : DB) (i : Nat) (c : String) : Except DbErr DB :=
  match db.sections.find? (fun x => x.id == i) with
  | none => .error .notFound
  | some s =>
    if db.sections.any (fun x => x.id != i && x.branch_id == s.branch_id && x.code == c) then
      .error .conflict
    else .ok { db with
      sections := db.sections.map (fun x => if x.id == i then { x with code := c } else x) }

/-- Insert into `legislations`: primary key, the `unique=True` constraint on
`legislation_code` (database_models.py line 121), and the three nullable
foreign keys (branch, section, parent legislation). -/
def insertLegislation (db : DB) (g : LegislationRow) : Except DbErr DB :=
  if db.legislations.any (fun x => x.id == g.id) then .error .conflict
  else if db.legislations.any (fun x => x.legislation_code == g.legislation_code) then
    .error .conflict
  else if !(optFkOk g.branch_id (db.branches.map (fun x => x.id))) then .error .fkViolation
  else if !(optFkOk g.section_id (db.sections.map (fun x => x.id))) then .error .fkViolation
  else if !(optFkOk g.parent_legislation_id (db.legislations.map (fun x => x.id))) then
    .error .fkViolation
  else .ok { db with legislations := db.legislations ++ [g] }

/-- Update the `legislation_code` of the legislation with the given id;
rejected with a conflict when a different legislation already holds that
code. -/
def updateLegislationCode (db : DB) (i : Nat) (c : String) : Except DbErr DB :=
  if db.legislations.all (fun x => x.id != i) then .error .notFound
  else if db.legislations.any (fun x => x.id != i && x.legislation_code == c) then
    .error .conflict
  else .ok { db with
    legislations := db.legislations.map
      (fun x => if x.id == i then { x with legislation_code := c } else x) }

/-- Insert into `laws`: primary key, the `unique=True` constraint on
`law_code` (database_models.py line 164), and the three nullable foreign
keys (branch, section, related legislation). -/
def insertLaw (db : DB) (l : LawRow) : Except DbErr DB :=
  if db.laws.any (fun x => x.id == l.id) then .error .conflict
  else if db.laws.any (fun x => x.law_code == l.law_code) then .error .conflict
  else if !(optFkOk l.branch_id (db.branches.map (fun x => x.id))) then .error .fkViolation
  else if !(optFkOk l.section_id (db.sections.map (fun x => x.id))) then .error .fkViolation
  else if !(optFkOk l.related_legislation_id (db.legislations.map (fun x => x.id))) then
    .error .fkViolation
  else .ok { db with laws := db.laws ++ [l] }

/-- Update the `law_code` of the law with the given id; rejected with a
conflict when a different law already holds that code. -/
def updateLawCode (db : DB) (i : Nat) (c : String) : Except DbErr DB :=
  if db.laws.all (fun x => x.id != i) then .error .notFound
  else if db.laws.any (fun x => x.id != i && x.law_code == c) then .error .conflict
  else .ok { db with
    laws := db.laws.map (fun x => if x.id == i then { x with law_code := c } else x) }

/-- Insert into `articles`: primary key and the non-null cascade foreign key
to `laws`.  `article_number` carries only a plain index
(database_models.py line 203), so no uniqueness is checked on it. -/
def insertArticle (db : DB) (a : ArticleRow) : Except DbErr DB :=
  if db.articles.any (fun x => x.id == a.id) then .error .conflict
  else if db.laws.all (fun x => x.id != a.law_id) then .error .fkViolation
  else .ok { db with articles := db.articles ++ [a] }

/-- Insert into `clauses`: primary key, the non-null foreign key to `laws`,
and the nullable foreign key to `articles`. -/
def insertClause (db : DB) (c : ClauseRow) : Except DbErr DB :=
  if db.clauses.any (fun x => x.id == c.id) then .error .conflict
  else if db.laws.all (fun x => x.id != c.law_id) then .error .fkViolation
  else if !(optFkOk c.article_id (db.articles.map (fun x => x.id))) then .error .fkViolation
  else .ok { db with clauses := db.clauses ++ [c] }

/-- Insert into `knowledge_base`: primary key and the nullable foreign key
to `branches`.  The JSON columns `related_legislation_ids` and
`related_law_ids` are not foreign keys and are stored without any existence
check. -/
def insertKnowledgeBase (db : DB) (k : KnowledgeBaseRow) : Except DbErr DB :=
  if db.knowledge_base.any (fun x => x.id == k.id) then .error .conflict
  else if !(optFkOk k.branch_id (db.branches.map (fun x => x.id))) then .error .fkViolation
  else .ok { db with knowledge_base := db.knowledge_base ++ [k] }

/-- Insert into `news`: primary key, the `unique=True` constraint on the
nullable `slug` column (database_models.py line 304; two NULL slugs do not
conflict), and the nullable foreign key to `branches`. -/
def insertNews (db : DB) (n : NewsRow) : Except DbErr DB :=
  if db.news.any (fun x => x.id == n.id) then .error .conflict
  else if (match n.slug with
    | some v => db.news.any (fun x => x.slug == some v)
    | none => false) then .error .conflict
  else if !(optFkOk n.branch_id (db.branches.map (fun x => x.id))) then .error .fkViolation
  else .ok { db with news := db.news ++ [n] }

/-- Update the `slug` of the news row with the given id; rejected with a
conflict when the new slug is non-null and a different news row already
holds it. -/
def updateNewsSlug (db : DB) (i : Nat) (sl : Option String) : Except DbErr DB :=
  if db.news.all (fun x => x.id != i) then .error .notFound
  else if (match sl with
    | some v => db.news.any (fun x => x.id != i && x.slug == some v)
    | none => false) then .error .conflict
  else .ok { db with
    news := db.news.map (fun x => if x.id == i then { x with slug := sl } else x) }

/-- Insert into the association table `legislation_knowledge_base`
(database_models.py lines 370-377): both columns are enforced foreign keys
and together form the composite primary key. -/
def insertLegislationKB (db : DB) (p : Nat × Nat) : Except DbErr DB :=
  if db.legislation_knowledge_base.any (fun q => q == p) then .error .conflict
  else if db.legislations.all (fun x => x.id != p.1) then .error .fkViolation
  else if db.knowledge_base.all (fun x => x.id != p.2) then .error .fkViolation
  else .ok { db with
    legislation_knowledge_base := db.legislation_knowledge_base ++ [p] }

/-- Insert into the association table `law_knowledge_base`
(database_models.py lines 379-386): both columns are enforced foreign keys
and together form the composite primary key. -/
def insertLawKB (db : DB) (p : Nat × Nat) : Except DbErr DB :=
  if db.law_knowledge_base.any (fun q => q == p) then .error .conflict
  else if db.laws.all (fun x => x.id != p.1) then .error .fkViolation
  else if db.knowledge_base.all (fun x => x.id != p.2) then .error .fkViolation
  else .ok { db with law_knowledge_base := db.law_knowledge_base ++ [p] }

/-! ## Delete operations

SQL `DELETE` of a missing row affects nothing and raises no error, so each
delete is a total function.  `ondelete='CASCADE'` foreign keys and the ORM
`cascade="all, delete-orphan"` relationships delete dependent rows,
recursively; the nullable foreign keys declared without an `ondelete` rule
(branch/section/legislation references) follow the SQLAlchemy relationship
default of nulling out the referencing column when the target row is
deleted. -/

/-- Delete the branch with id `b`: its sections are cascade-deleted
(`Branch.sections` has `cascade="all, delete-orphan"`, line 68 and the
`ondelete='CASCADE'` on `Section.branch_id`, line 89); the nullable branch
references on legislations, laws, knowledge base, news and library items
are nulled out, as are section references to the cascade-deleted
sections. -/
def deleteBranch (db : DB) (b : Nat) : DB :=
  let deadSections := (db.sections.filter (fun s => s.branch_id == b)).map (fun s => s.id)
  { db with
    branches := db.branches.filter (fun x => x.id != b)
    sections := db.sections.filter (fun s => s.branch_id != b)
    legislations := db.legislations.map (fun g =>
      { g with
        branch_id := if g.branch_id == some b then none else g.branch_id
        section_id := match g.section_id with
          | some s => if deadSections.contains s then none else some s
          | none => none })
    laws := db.laws.map (fun l =>
      { l with
        branch_id := if l.branch_id == some b then none else l.branch_id
        section_id := match l.section_id with
          | some s => if deadSections.contains s then none else some s
          | none => none })
    knowledge_base := db.knowledge_base.map (fun k =>
      { k with branch_id := if k.branch_id == some b then none else k.branch_id })
    news := db.news.map (fun n =>
      { n with branch_id := if n.branch_id == some b then none else n.branch_id })
    library_items := db.library_items.map (fun m =>
      { m with branch_id := if m.branch_id == some b then none else m.branch_id }) }

/-- Delete the law with id `l`: its articles and clauses are cascade-deleted
(`Law.articles` / `Law.clauses` with `cascade="all, delete-orphan"`,
lines 191-192, and the `ondelete='CASCADE'` keys on `Article.law_id`,
`Clause.law_id`).  The cascade chains: a clause whose `article_id`
references a deleted article is also deleted via the `ondelete='CASCADE'`
on `Clause.article_id` (line 233).  Association rows in
`law_knowledge_base` referencing the law are cascade-deleted. -/
def deleteLaw (db : DB) (l : Nat) : DB :=
  let deadArticles := (db.articles.filter (fun a => a.law_id == l)).map (fun a => a.id)
  { db with
    laws := db.laws.filter (fun x => x.id != l)
    articles := db.articles.filter (fun a => a.law_id != l)
    clauses := db.clauses.filter (fun c =>
      c.law_id != l && (match c.article_id with
        | some a => !(deadArticles.contains a)
        | none => true))
    law_knowledge_base := db.law_knowledge_base.filter (fun p => p.1 != l) }

/-- Delete the article with id `a`: its clauses are cascade-deleted
(`Article.clauses` with `cascade="all, delete-orphan"`, line 217, and the
`ondelete='CASCADE'` on `Clause.article_id`). -/
def deleteArticle (db : DB) (a : Nat) : DB :=
  { db with
    articles := db.articles.filter (fun x => x.id != a)
    clauses := db.clauses.filter (fun c => c.article_id != some a) }

/-- Delete the legislation with id `g`: association rows in
`legislation_knowledge_base` referencing it are cascade-deleted
(`ondelete='CASCADE'` on `legislation_id`, line 373); the nullable
references `Legislation.parent_legislation_id` and
`Law.related_legislation_id` are nulled out. -/
def deleteLegislation (db : DB) (g : Nat) : DB :=
  { db with
    legislations := (db.legislations.filter (fun x => x.id != g)).map (fun x =>
      { x with parent_legislation_id :=
          if x.parent_legislation_id == some g then none else x.parent_legislation_id })
    laws := db.laws.map (fun l =>
      { l with related_legislation_id :=
          if l.related_legislation_id == some g then none else l.related_legislation_id })
    legislation_knowledge_base :=
      db.legislation_knowledge_base.filter (fun p => p.1 != g) }

/-- Delete the knowledge-base row with id `k`: association rows referencing
it in both `legislation_knowledge_base` and `law_knowledge_base` are
cascade-deleted (`ondelete='CASCADE'` on `knowledge_base_id`, lines 374
and 383). -/
def deleteKnowledgeBase (db : DB) (k : Nat) : DB :=
  { db with
    knowledge_base := db.knowledge_base.filter (fun x => x.id != k)
    legislation_knowledge_base :=
      db.legislation_knowledge_base.filter (fun p => p.2 != k)
    law_knowledge_base := db.law_knowledge_base.filter (fun p => p.2 != k) }

/-! ## Raw writes through the declared enum columns

A write arriving with raw string values for an `Enum` column is validated
against the declared member set before anything reaches storage; an
out-of-set value fails validation and the state is unchanged. -/

/-- Insert a legislation whose enum columns `status` and `document_type`
carry the given raw string values; out-of-set values fail validation. -/
def insertLegislationRaw (db : DB) (g : LegislationRow)
    (statusStr docStr : String) : Except DbErr DB :=
  match LegalStatus.ofValue statusStr, DocumentType.ofValue docStr with
  | some st, some dt => insertLegislation db { g with status := st, document_type := dt }
  | _, _ => .error .validation

/-- Insert a law whose enum column `status` carries the given raw string
value; an out-of-set value fails validation. -/
def insertLawRaw (db : DB) (l : LawRow) (statusStr : String) : Except DbErr DB :=
  match LegalStatus.ofValue statusStr with
  | some st => insertLaw db { l with status := st }
  | none => .error .validation

/-- Insert a knowledge-base row whose enum column `priority` carries the
given raw string value; an out-of-set value fails validation. -/
def insertKnowledgeBaseRaw (db : DB) (k : KnowledgeBaseRow)
    (prioStr : String) : Except DbErr DB :=
  match Priority.ofValue prioStr with
  | some pr => insertKnowledgeBase db { k with priority := pr }
  | none => .error .validation

/-- Insert a news row whose enum column `priority` carries the given raw
string value; an out-of-set value fails validation. -/
def insertNewsRaw (db : DB) (n : NewsRow) (prioStr : String) : Except DbErr DB :=
  match Priority.ofValue prioStr with
  | some pr => insertNews db { n with priority := pr }
  | none => .error .validation

/-! ## Knowledge Bank Resource API

The repository holds only the test suite for this API
(`src/tests/test_knowledge_bank_api.py`); the application under test
(`app.main`, `app.api.endpoints.knowledge_bank`) is not in the repository.
The definitions below are therefore modelled from the specification's
reconstructed contract (spec sections 4.2, 6 and 8). -/

/-- Modelled from the spec: one stored knowledge-bank record; the missing
`app.models.knowledge_bank` record shape is reconstructed from the create
payload fields the tests send and the response fields they read. -/
structure KBEntry where
  id : Nat := 0
  title : String := ""
  description : Option String := none
  category : String := ""
  content : String := ""
  tags : List String := []
  author : Option String := none
  status : Option String := none
  created_at : Nat := 0
deriving DecidableEq, Repr

/-- Modelled from the spec: the create payload of the missing
`app.schemas.knowledge_bank.KnowledgeBankCreate`; `none` models a field
that is absent from the JSON body or sent as null. -/
structure KBCreate where
  title : Option String := none
  description : Option String := none
  category : Option String := none
  content : Option String := none
  tags : List String := []
  author : Option String := none
  status : Option String := none
deriving DecidableEq, Repr

/-- Modelled from the spec: the partial-update payload of the missing
`app.schemas.knowledge_bank.KnowledgeBankUpdate`; `none` models a field
absent from the PATCH body. -/
structure KBUpdate where
  title : Option String := none
  description : Option String := none
  category : Option String := none
  content : Option String := none
  tags : Option (List String) := none
  author : Option String := none
  status : Option String := none
deriving DecidableEq, Repr

/-- The PATCH body `{}`: every field absent. -/
def emptyKBUpdate : KBUpdate := {}

/-- Modelled from the spec: the server-side state of the missing
knowledge-bank application — the stored records plus the next
server-assigned id. -/
structure ApiState where
  entries : List KBEntry := []
  next_id : Nat := 1
deriving DecidableEq, Repr

/-- Modelled from the spec: `POST /api/v1/knowledge-bank` of the missing
endpoint module.  Returns the next state and the HTTP status code: 422 when
title or content is absent, null or empty or category is absent or empty;
409 when an existing record already holds the title; otherwise 201 and the
record is appended with a server-assigned id. -/
def kbCreate (s : ApiState) (p : KBCreate) : ApiState × Nat :=
  match p.title, p.content, p.category with
  | some t, some c, some cat =>
    if t == "" || c == "" || cat == "" then (s, 422)
    else if s.entries.any (fun e => e.title == t) then (s, 409)
    else
      let e : KBEntry :=
        { id := s.next_id
          title := t
          description := p.description
          category := cat
          content := c
          tags := p.tags
          author := p.author
          status := p.status }
      ({ entries := s.entries ++ [e], next_id := s.next_id + 1 }, 201)
  | _, _, _ => (s, 422)

/-- Modelled from the spec: `GET /api/v1/knowledge-bank/{id}` of the missing
endpoint module.  Returns the record and 200, or `none` and 404. -/
def kbGet (s : ApiState) (i : Nat) : Option KBEntry × Nat :=
  match s.entries.find? (fun e => e.id == i) with
  | some e => (some e, 200)
  | none => (none, 404)

/-- Modelled from the spec: `DELETE /api/v1/knowledge-bank/{id}` of the
missing endpoint module.  Removes the record and returns 204, or returns
404 when no record has that id. -/
def kbDelete (s : ApiState) (i : Nat) : ApiState × Nat :=
  if s.entries.any (fun e => e.id == i) then
    ({ s with entries := s.entries.filter (fun e => e.id != i) }, 204)
  else (s, 404)

/-- Modelled from the spec: application of a partial-update payload to one
record — every field present in the payload is replaced, every absent field
keeps its prior value. -/
def applyKBUpdate (u : KBUpdate) (e : KBEntry) : KBEntry :=
  { e with
    title := u.title.getD e.title
    description := match u.description with
      | some d => some d
      | none => e.description
    category := u.category.getD e.category
    content := u.content.getD e.content
    tags := u.tags.getD e.tags
    author := match u.author with
      | some a => some a
      | none => e.author
    status := match u.status with
      | some v => some v
      | none => e.status }

/-- Modelled from the spec: `PATCH /api/v1/knowledge-bank/{id}` of the
missing endpoint module.  Applies the partial update to the addressed
record and returns 200, or returns 404 when no record has that id. -/
def kbUpdate (s : ApiState) (i : Nat) (u : KBUpdate) : ApiState × Nat :=
  if s.entries.any (fun e => e.id == i) then
    ({ s with entries := s.entries.map (fun e =>
        if e.id == i then applyKBUpdate u e else e) }, 200)
  else (s, 404)

/-- Modelled from the spec: the list-request filters of the missing endpoint
module — category, status, author, tag and free-text search, composed with
logical AND. -/
structure KBFilters where
  category : Option String := none
  status : Option String := none
  author : Option String := none
  tag : Option String := none
  search : Option String := none
deriving DecidableEq, Repr

/-- True when the pattern occurs as a contiguous sublist of the second
list. -/
def subListOf (pat : List Char) : List Char → Bool
  | [] => pat.isEmpty
  | c :: rest => pat.isPrefixOf (c :: rest) || subListOf pat rest

/-- Case-insensitive substring test used by the free-text search filter. -/
def strContainsCI (hay needle : String) : Bool :=
  subListOf needle.toLower.toList hay.toLower.toList

/-- Modelled from the spec: whether a record satisfies every supplied
filter (conjunctive composition; search matches the title, case
insensitively). -/
def kbMatches (f : KBFilters) (e : KBEntry) : Bool :=
  (match f.category with | some v => e.category == v | none => true) &&
  (match f.status with | some v => e.status == some v | none => true) &&
  (match f.author with | some v => e.author == some v | none => true) &&
  (match f.tag with | some v => e.tags.contains v | none => true) &&
  (match f.search with | some v => strContainsCI e.title v | none => true)

/-- Modelled from the spec: the `{items, total, skip, limit}` response
envelope of the list operation. -/
structure KBPage where
  items : List KBEntry
  total : Nat
  skip : Nat
  limit : Nat
deriving DecidableEq, Repr

/-- Modelled from the spec: `GET /api/v1/knowledge-bank` of the missing
endpoint module.  Query parameters `skip` (default 0) and `limit`
(default 10) must be non-negative and positive respectively, else 422;
`total` is the count of all records matching the filters, and `items` is
the `skip`/`limit` window of them. -/
def kbList (s : ApiState) (f : KBFilters) (skipQ limitQ : Option Int) :
    Except Nat KBPage :=
  let sk : Int := skipQ.getD 0
  let li : Int := limitQ.getD 10
  if sk < 0 || li ≤ 0 then .error 422
  else
    let matching := s.entries.filter (kbMatches f)
    .ok { items := (matching.drop sk.toNat).take li.toNat
          total := matching.length
          skip := sk.toNat
          limit := li.toNat }

/-! ## Helper lemmas -/

/-- A membership witness makes a `List.any` check true. -/
theorem any_true_of_mem {α : Type} {l : List α} {p : α → Bool} {x : α}
    (hx : x ∈ l) (hp : p x = true) : l.any p = true :=
  List.any_eq_true.mpr ⟨x, hx, hp⟩

/-- A membership counterexample makes a `List.all` check false. -/
theorem all_false_of_mem {α : Type} {l : List α} {p : α → Bool} {x : α}
    (hx : x ∈ l) (hp : p x = false) : l.all p = false := by
  cases h : l.all p
  · rfl
  · exact absurd (List.all_eq_true.mp h x hx) (by simp [hp])

/-- C1.  Branch.code, Section(branch_id, code), Legislation.legislation_code,
Law.law_code and News.slug (when non-null) are unique: every insert of a row
duplicating an existing value of the key, and every update that would move a
row onto a different row's value of the key, is rejected with a conflict
error; the operation returns `.error .conflict` and produces no new state,
so the stored state is unchanged. -/
theorem unique_constraints_reject_duplicates (db : DB) :
    (∀ b : BranchRow, (∃ x ∈ db.branches, x.code = b.code) →
      insertBranch db b = .error .conflict) ∧
    (∀ i c, (∃ y ∈ db.branches, y.id = i) →
      (∃ x ∈ db.branches, x.id ≠ i ∧ x.code = c) →
      updateBranchCode db i c = .error .conflict) ∧
    (∀ s : SectionRow, (∃ x ∈ db.sections, x.branch_id = s.branch_id ∧ x.code = s.code) →
      insertSection db s = .error .conflict) ∧
    (∀ i c s0, db.sections.find? (fun x => x.id == i) = some s0 →
      (∃ x ∈ db.sections, x.id ≠ i ∧ x.branch_id = s0.branch_id ∧ x.code = c) →
      updateSectionCode db i c = .error .conflict) ∧
    (∀ g : LegislationRow, (∃ x ∈ db.legislations, x.legislation_code = g.legislation_code) →
      insertLegislation db g = .error .conflict) ∧
    (∀ i c, (∃ y ∈ db.legislations, y.id = i) →
      (∃ x ∈ db.legislations, x.id ≠ i ∧ x.legislation_code = c) →
      updateLegislationCode db i c = .error .conflict) ∧
    (∀ l : LawRow, (∃ x ∈ db.laws, x.law_code = l.law_code) →
      insertLaw db l = .error .conflict) ∧
    (∀ i c, (∃ y ∈ db.laws, y.id = i) →
      (∃ x ∈ db.laws, x.id ≠ i ∧ x.law_code = c) →
      updateLawCode db i c = .error .conflict) ∧
    (∀ n : NewsRow, ∀ v, n.slug = some v → (∃ x ∈ db.news, x.slug = some v) →
      insertNews db n = .error .conflict) ∧
    (∀ i v, (∃ y ∈ db.news, y.id = i) →
      (∃ x ∈ db.news, x.id ≠ i ∧ x.slug = some v) →
      updateNewsSlug db i (some v) = .error .conflict) := by
  refine ⟨?_, ?_, ?_, ?_, ?_, ?_, ?_, ?_, ?_, ?_⟩
  · rintro b ⟨x, hx, hc⟩
    have hB : db.branches.any (fun y => y.code == b.code) = true :=
      any_true_of_mem hx (by simp [hc])
    simp [insertBranch, hB]
  · rintro i c ⟨y, hy, hyi⟩ ⟨x, hx, hxi, hxc⟩
    have hF : db.branches.all (fun z => z.id != i) = false :=
      all_false_of_mem hy (by simp [hyi])
    have hB : db.branches.any (fun z => z.id != i && z.code == c) = true :=
      any_true_of_mem hx (by simp [hxi, hxc])
    simp [updateBranchCode, hF, hB]
  · rintro s ⟨x, hx, hb, hc⟩
    have hB : db.sections.any (fun y => y.branch_id == s.branch_id && y.code == s.code) = true :=
      any_true_of_mem hx (by simp [hb, hc])
    simp [insertSection, hB]
  · rintro i c s0 hfind ⟨x, hx, hxi, hxb, hxc⟩
    have hB : db.sections.any
        (fun y => y.id != i && y.branch_id == s0.branch_id && y.code == c) = true :=
      any_true_of_mem hx (by simp [hxi, hxb, hxc])
    simp [updateSectionCode, hfind, hB]
  · rintro g ⟨x, hx, hc⟩
    have hB : db.legislations.any (fun y => y.legislation_code == g.legislation_code) = true :=
      any_true_of_mem hx (by simp [hc])
    simp [insertLegislation, hB]
  · rintro i c ⟨y, hy, hyi⟩ ⟨x, hx, hxi, hxc⟩
    have hF : db.legislations.all (fun z => z.id != i) = false :=
      all_false_of_mem hy (by simp [hyi])
    have hB : db.legislations.any (fun z => z.id != i && z.legislation_code == c) = true :=
      any_true_of_mem hx (by simp [hxi, hxc])
    simp [updateLegislationCode, hF, hB]
  · rintro l ⟨x, hx, hc⟩
    have hB : db.laws.any (fun y => y.law_code == l.law_code) = true :=
      any_true_of_mem hx (by simp [hc])
    simp [insertLaw, hB]
  · rintro i c ⟨y, hy, hyi⟩ ⟨x, hx, hxi, hxc⟩
    have hF : db.laws.all (fun z => z.id != i) = false :=
      all_false_of_mem hy (by simp [hyi])
    have hB : db.laws.any (fun z => z.id != i && z.law_code == c) = true :=
      any_true_of_mem hx (by simp [hxi, hxc])
    simp [updateLawCode, hF, hB]
  · rintro n v hnv ⟨x, hx, hxs⟩
    have hB : db.news.any (fun y => y.slug == some v) = true :=
      any_true_of_mem hx (by simp [hxs])
    simp [insertNews, hnv, hB]
  · rintro i v ⟨y, hy, hyi⟩ ⟨x, hx, hxi, hxs⟩
    have hF : db.news.all (fun z => z.id != i) = false :=
      all_false_of_mem hy (by simp [hyi])
    have hB : db.news.any (fun z => z.id != i && z.slug == some v) = true :=
      any_true_of_mem hx (by simp [hxi, hxs])
    simp [updateNewsSlug, hF, hB]

/-- Concrete database used to witness the uniqueness-conflict theorem: two
rows in each of the five constrained tables. -/
def uniqDB : DB :=
  { branches := [{ id := 1, code := "HQ" }, { id := 2, code := "EAST" }]
    sections := [{ id := 1, branch_id := 1, code := "S1" },
                 { id := 2, branch_id := 1, code := "S2" }]
    legislations := [{ id := 1, legislation_code := "LEG-1" },
                     { id := 2, legislation_code := "LEG-2" }]
    laws := [{ id := 1, law_code := "LAW-1" }, { id := 2, law_code := "LAW-2" }]
    news := [{ id := 1, slug := some "first-story" },
             { id := 2, slug := some "second-story" }] }

/-- Witness for C1: on `uniqDB`, each duplicate-key insert and each update
onto another row's key value is rejected with a conflict. -/
theorem unique_constraints_reject_duplicates_witness :
    insertBranch uniqDB { id := 3, code := "HQ" } = .error .conflict ∧
    updateBranchCode uniqDB 2 "HQ" = .error .conflict ∧
    insertSection uniqDB { id := 3, branch_id := 1, code := "S1" } = .error .conflict ∧
    updateSectionCode uniqDB 2 "S1" = .error .conflict ∧
    insertLegislation uniqDB { id := 3, legislation_code := "LEG-1" } = .error .conflict ∧
    updateLegislationCode uniqDB 2 "LEG-1" = .error .conflict ∧
    insertLaw uniqDB { id := 3, law_code := "LAW-1" } = .error .conflict ∧
    updateLawCode uniqDB 2 "LAW-1" = .error .conflict ∧
    insertNews uniqDB { id := 3, slug := some "first-story" } = .error .conflict ∧
    updateNewsSlug uniqDB 2 (some "first-story") = .error .conflict := by
  obtain ⟨h1, h2, h3, h4, h5, h6, h7, h8, h9, h10⟩ :=
    unique_constraints_reject_duplicates uniqDB
  refine ⟨h1 _ ?_, h2 2 "HQ" ?_ ?_, h3 _ ?_, h4 2 "S1" { id := 2, branch_id := 1, code := "S2" } ?_ ?_,
    h5 _ ?_, h6 2 "LEG-1" ?_ ?_, h7 _ ?_, h8 2 "LAW-1" ?_ ?_,
    h9 _ "first-story" rfl ?_, h10 2 "first-story" ?_ ?_⟩ <;> decide

/-- C2 (amended).  Deleting a Branch deletes exactly the Sections whose
branch_id references it and deletes no legislation, law, knowledge-base,
news, library or article/clause rows; deleting a Law deletes exactly the
Articles whose law_id references it, together with the Clauses whose law_id
references it or whose article_id references one of those deleted Articles
(the cascade on `Clause.article_id` chains); deleting an Article deletes
exactly the Clauses whose article_id references it.  In particular no
Section, Article or Clause survives with a reference to a deleted owner. -/
theorem cascade_delete_characterization :
    (∀ db b s, s ∈ (deleteBranch db b).sections ↔ s ∈ db.sections ∧ s.branch_id ≠ b) ∧
    (∀ db b, (deleteBranch db b).legislations.length = db.legislations.length ∧
      (deleteBranch db b).laws.length = db.laws.length ∧
      (deleteBranch db b).knowledge_base.length = db.knowledge_base.length ∧
      (deleteBranch db b).news.length = db.news.length ∧
      (deleteBranch db b).library_items.length = db.library_items.length ∧
      (deleteBranch db b).articles = db.articles ∧
      (deleteBranch db b).clauses = db.clauses) ∧
    (∀ db l a, a ∈ (deleteLaw db l).articles ↔ a ∈ db.articles ∧ a.law_id ≠ l) ∧
    (∀ db l c, c ∈ (deleteLaw db l).clauses ↔
      c ∈ db.clauses ∧ c.law_id ≠ l ∧
        ∀ a ∈ db.articles, a.law_id = l → c.article_id ≠ some a.id) ∧
    (∀ db i c, c ∈ (deleteArticle db i).clauses ↔ c ∈ db.clauses ∧ c.article_id ≠ some i) := by
  refine ⟨?_, ?_, ?_, ?_, ?_⟩
  · intro db b s
    simp [deleteBranch, List.mem_filter]
  · intro db b
    simp [deleteBranch]
  · intro db l a
    simp [deleteLaw, List.mem_filter]
  · intro db l c
    rcases hart : c.article_id with _ | x
    · simp [deleteLaw, List.mem_filter, hart]
    · simp [deleteLaw, List.mem_filter, hart, List.mem_map]
      aesop
  · intro db i c
    simp [deleteArticle, List.mem_filter]

/-- Database reached by four accepted inserts in which a clause of law 2
references an article of law 1; used to refute the unamended cascade
claim. -/
def chainDB : DB :=
  { laws := [{ id := 1, law_code := "LAW-1" }, { id := 2, law_code := "LAW-2" }]
    articles := [{ id := 1, law_id := 1, article_number := 1 }]
    clauses := [{ id := 1, law_id := 2, article_id := some 1, clause_number := "1" }] }

/-- The clause of law 2 that references article 1 of law 1. -/
def chainClause : ClauseRow :=
  { id := 1, law_id := 2, article_id := some 1, clause_number := "1" }

/-- Counterexample to C2 as stated: in `chainDB`, reached from the empty
database by four accepted inserts, deleting Law 1 also deletes
`chainClause`, whose `law_id` is 2 — so the delete removes more than "exactly
the Articles and Clauses whose law_id references it". -/
theorem cascade_delete_law_counterexample :
    ((insertLaw emptyDB { id := 1, law_code := "LAW-1" }).bind (fun d =>
      (insertLaw d { id := 2, law_code := "LAW-2" }).bind (fun d2 =>
        (insertArticle d2 { id := 1, law_id := 1, article_number := 1 }).bind (fun d3 =>
          insertClause d3 chainClause)))) = .ok chainDB ∧
    chainClause ∈ chainDB.clauses ∧
    chainClause.law_id = 2 ∧
    chainClause ∉ (deleteLaw chainDB 1).clauses := by
  refine ⟨rfl, by decide, rfl, by decide⟩

/-- Two branches, one section each; used to witness the cascade
characterization. -/
def twoBranchDB : DB :=
  { branches := [{ id := 1, code := "HQ" }, { id := 2, code := "EAST" }]
    sections := [{ id := 1, branch_id := 1, code := "S1" },
                 { id := 2, branch_id := 2, code := "S1" }] }

/-- Witness for the amended C2: applying the characterization on
`twoBranchDB`, the section of branch 2 survives the deletion of branch 1,
and on `chainDB` the chained condition rules the referencing clause out. -/
theorem cascade_delete_characterization_witness :
    ({ id := 2, branch_id := 2, code := "S1" } : SectionRow) ∈
      (deleteBranch twoBranchDB 1).sections ∧
    chainClause ∉ (deleteLaw chainDB 1).clauses := by
  refine ⟨(cascade_delete_characterization.1 twoBranchDB 1 _).mpr ⟨by decide, by decide⟩, ?_⟩
  intro h
  have h2 := (cascade_delete_characterization.2.2.2.1 chainDB 1 chainClause).mp h
  exact absurd h2 (by decide)

/-- Within-law uniqueness of `article_number`: any two articles of the same
law sharing an article_number are the same row. -/
def articleNumberUniquePerLaw (db : DB) : Prop :=
  ∀ x ∈ db.articles, ∀ y ∈ db.articles,
    x.law_id = y.law_id → x.article_number = y.article_number → x.id = y.id

/-- Database reached by three accepted inserts in which two distinct
articles of law 1 both carry article_number 1. -/
def dupArticleDB : DB :=
  { laws := [{ id := 1, law_code := "LAW-1" }]
    articles := [{ id := 1, law_id := 1, article_number := 1, title := "a" },
                 { id := 2, law_id := 1, article_number := 1, title := "b" }] }

/-- Counterexample to C3 as stated: the schema puts only a plain index on
`article_number`, so `dupArticleDB` — reached from the empty database by
three accepted inserts — holds two distinct articles of law 1 with the same
article_number. -/
theorem article_number_not_unique_counterexample :
    ((insertLaw emptyDB { id := 1, law_code := "LAW-1" }).bind (fun d =>
      (insertArticle d { id := 1, law_id := 1, article_number := 1, title := "a" }).bind
        (fun d2 =>
          insertArticle d2 { id := 2, law_id := 1, article_number := 1, title := "b" })))
      = .ok dupArticleDB ∧
    ¬ articleNumberUniquePerLaw dupArticleDB := by
  refine ⟨rfl, ?_⟩
  intro h
  have := h { id := 1, law_id := 1, article_number := 1, title := "a" } (by decide)
    { id := 2, law_id := 1, article_number := 1, title := "b" } (by decide) rfl rfl
  simp at this

/-- C3 (amended).  `article_number` is not enforced unique within a Law: an
article insert is accepted whenever its primary key is fresh and its law
exists, regardless of any existing article of the same law with the same
article_number. -/
theorem article_number_duplicates_accepted (db : DB) (a : ArticleRow)
    (hid : ∀ x ∈ db.articles, x.id ≠ a.id)
    (hlaw : ∃ l ∈ db.laws, l.id = a.law_id) :
    insertArticle db a = .ok { db with articles := db.articles ++ [a] } := by
  have hpk : db.articles.any (fun x => x.id == a.id) = false := by
    cases h : db.articles.any (fun x => x.id == a.id)
    · rfl
    · obtain ⟨x, hx, hx2⟩ := List.any_eq_true.mp h
      exact absurd (by simpa using hx2) (hid x hx)
  obtain ⟨l, hl, hli⟩ := hlaw
  have hfk : db.laws.all (fun x => x.id != a.law_id) = false :=
    all_false_of_mem hl (by simp [hli])
  simp [insertArticle, hpk, hfk]

/-- Witness for the amended C3: in `dupArticleDB` itself, a third article of
law 1 with the already-used article_number 1 is accepted. -/
theorem article_number_duplicates_accepted_witness :
    insertArticle dupArticleDB { id := 3, law_id := 1, article_number := 1 } =
      .ok { dupArticleDB with
        articles := dupArticleDB.articles ++ [{ id := 3, law_id := 1, article_number := 1 }] } :=
  article_number_duplicates_accepted dupArticleDB _ (by decide) (by decide)

/-- The five declared status strings. -/
def legalStatusValues : List String :=
  ["active", "inactive", "repealed", "amended", "pending"]

/-- The eight declared document-type strings. -/
def documentTypeValues : List String :=
  ["legislation", "law", "regulation", "decree", "resolution", "directive",
   "article", "clause"]

/-- The three declared priority strings. -/
def priorityValues : List String := ["high", "medium", "low"]

/-- Every `LegalStatus` member's string value is in the declared set. -/
theorem legalStatus_value_mem (s : LegalStatus) : s.value ∈ legalStatusValues := by
  cases s <;> simp [LegalStatus.value, legalStatusValues]

/-- Every `DocumentType` member's string value is in the declared set. -/
theorem documentType_value_mem (d : DocumentType) : d.value ∈ documentTypeValues := by
  cases d <;> simp [DocumentType.value, documentTypeValues]

/-- Every `Priority` member's string value is in the declared set. -/
theorem priority_value_mem (p : Priority) : p.value ∈ priorityValues := by
  cases p <;> simp [Priority.value, priorityValues]

/-- A string outside the declared status set does not parse. -/
theorem legalStatus_ofValue_eq_none {s : String} (h : s ∉ legalStatusValues) :
    LegalStatus.ofValue s = none := by
  simp only [legalStatusValues, List.mem_cons, List.not_mem_nil, or_false, not_or] at h
  obtain ⟨h1, h2, h3, h4, h5⟩ := h
  simp [LegalStatus.ofValue, h1, h2, h3, h4, h5]

/-- A string outside the declared document-type set does not parse. -/
theorem documentType_ofValue_eq_none {s : String} (h : s ∉ documentTypeValues) :
    DocumentType.ofValue s = none := by
  simp only [documentTypeValues, List.mem_cons, List.not_mem_nil, or_false, not_or] at h
  obtain ⟨h1, h2, h3, h4, h5, h6, h7, h8⟩ := h
  simp [DocumentType.ofValue, h1, h2, h3, h4, h5, h6, h7, h8]

/-- A string outside the declared priority set does not parse. -/
theorem priority_ofValue_eq_none {s : String} (h : s ∉ priorityValues) :
    Priority.ofValue s = none := by
  simp only [priorityValues, List.mem_cons, List.not_mem_nil, or_false, not_or] at h
  obtain ⟨h1, h2, h3⟩ := h
  simp [Priority.ofValue, h1, h2, h3]

/-- C4.  The enum columns are closed value sets: every stored status is one
of {active, inactive, repealed, amended, pending}, every stored
document_type one of {legislation, law, regulation, decree, resolution,
directive, article, clause}, every stored priority one of
{high, medium, low}; and a raw write carrying an out-of-set string for any
of these columns fails validation, returning an error and leaving the
stored state unchanged. -/
theorem enum_fields_closed_value_sets :
    (∀ db : DB, ∀ g ∈ db.legislations, g.status.value ∈ legalStatusValues ∧
      g.document_type.value ∈ documentTypeValues) ∧
    (∀ db : DB, ∀ l ∈ db.laws, l.status.value ∈ legalStatusValues) ∧
    (∀ db : DB, ∀ k ∈ db.knowledge_base, k.priority.value ∈ priorityValues) ∧
    (∀ db : DB, ∀ n ∈ db.news, n.priority.value ∈ priorityValues) ∧
    (∀ db : DB, ∀ m ∈ db.library_items, m.document_type.value ∈ documentTypeValues) ∧
    (∀ db g ss ds, ss ∉ legalStatusValues →
      insertLegislationRaw db g ss ds = .error .validation) ∧
    (∀ db g ss ds, ds ∉ documentTypeValues →
      insertLegislationRaw db g ss ds = .error .validation) ∧
    (∀ db l ss, ss ∉ legalStatusValues → insertLawRaw db l ss = .error .validation) ∧
    (∀ db k ps, ps ∉ priorityValues →
      insertKnowledgeBaseRaw db k ps = .error .validation) ∧
    (∀ db n ps, ps ∉ priorityValues → insertNewsRaw db n ps = .error .validation) := by
  refine ⟨fun db g _ => ⟨legalStatus_value_mem _, documentType_value_mem _⟩,
    fun db l _ => legalStatus_value_mem _,
    fun db k _ => priority_value_mem _,
    fun db n _ => priority_value_mem _,
    fun db m _ => documentType_value_mem _,
    ?_, ?_, ?_, ?_, ?_⟩
  · intro db g ss ds h
    simp [insertLegislationRaw, legalStatus_ofValue_eq_none h]
  · intro db g ss ds h
    cases hs : LegalStatus.ofValue ss <;>
      simp [insertLegislationRaw, hs, documentType_ofValue_eq_none h]
  · intro db l ss h
    simp [insertLawRaw, legalStatus_ofValue_eq_none h]
  · intro db k ps h
    simp [insertKnowledgeBaseRaw, priority_ofValue_eq_none h]
  · intro db n ps h
    simp [insertNewsRaw, priority_ofValue_eq_none h]

/-- Witness for C4: a legislation row is stored with an in-set status, and
raw writes with the out-of-set value "archived" fail validation on every
enum column. -/
theorem enum_fields_closed_value_sets_witness :
    (({ id := 1, legislation_code := "LEG-1" } : LegislationRow).status.value ∈
      legalStatusValues) ∧
    insertLegislationRaw emptyDB { id := 1 } "archived" "legislation" = .error .validation ∧
    insertLegislationRaw emptyDB { id := 1 } "active" "memo" = .error .validation ∧
    insertLawRaw emptyDB { id := 1 } "archived" = .error .validation ∧
    insertKnowledgeBaseRaw emptyDB { id := 1 } "urgent" = .error .validation ∧
    insertNewsRaw emptyDB { id := 1 } "urgent" = .error .validation := by
  obtain ⟨hrow, -, -, -, -, h6, h7, h8, h9, h10⟩ := enum_fields_closed_value_sets
  exact ⟨(hrow { legislations := [{ id := 1, legislation_code := "LEG-1" }] }
      { id := 1, legislation_code := "LEG-1" } (by decide)).1,
    h6 emptyDB { id := 1 } "archived" "legislation" (by decide),
    h7 emptyDB { id := 1 } "active" "memo" (by decide),
    h8 emptyDB { id := 1 } "archived" (by decide),
    h9 emptyDB { id := 1 } "urgent" (by decide),
    h10 emptyDB { id := 1 } "urgent" (by decide)⟩

/-- True when a storage write succeeded. -/
def dbWriteOk (r : Except DbErr DB) : Bool :=
  match r with
  | .ok _ => true
  | .error _ => false

/-- Referential integrity of the two association tables: every row of
`legislation_knowledge_base` references an existing legislation and an
existing knowledge-base row, and every row of `law_knowledge_base`
references an existing law and an existing knowledge-base row. -/
def assocWF (db : DB) : Prop :=
  (∀ q ∈ db.legislation_knowledge_base,
    (∃ g ∈ db.legislations, g.id = q.1) ∧ ∃ k ∈ db.knowledge_base, k.id = q.2) ∧
  (∀ q ∈ db.law_knowledge_base,
    (∃ l ∈ db.laws, l.id = q.1) ∧ ∃ k ∈ db.knowledge_base, k.id = q.2)

/-- Association rows referencing a deleted legislation are exactly the ones
removed by `deleteLegislation`. -/
theorem legKB_mem_deleteLegislation (db : DB) (g : Nat) (q : Nat × Nat) :
    q ∈ (deleteLegislation db g).legislation_knowledge_base ↔
      q ∈ db.legislation_knowledge_base ∧ q.1 ≠ g := by
  simp [deleteLegislation, List.mem_filter]

/-- Association rows referencing a deleted law are exactly the ones removed
by `deleteLaw`. -/
theorem lawKB_mem_deleteLaw (db : DB) (l : Nat) (q : Nat × Nat) :
    q ∈ (deleteLaw db l).law_knowledge_base ↔
      q ∈ db.law_knowledge_base ∧ q.1 ≠ l := by
  simp [deleteLaw, List.mem_filter]

/-- Association rows referencing a deleted knowledge-base row are exactly
the ones removed from both association tables by `deleteKnowledgeBase`. -/
theorem assoc_mem_deleteKnowledgeBase (db : DB) (k : Nat) (q : Nat × Nat) :
    (q ∈ (deleteKnowledgeBase db k).legislation_knowledge_base ↔
      q ∈ db.legislation_knowledge_base ∧ q.2 ≠ k) ∧
    (q ∈ (deleteKnowledgeBase db k).law_knowledge_base ↔
      q ∈ db.law_knowledge_base ∧ q.2 ≠ k) := by
  constructor <;> simp [deleteKnowledgeBase, List.mem_filter]

/-- `deleteLegislation` preserves association referential integrity. -/
theorem assocWF_deleteLegislation (db : DB) (g : Nat) (h : assocWF db) :
    assocWF (deleteLegislation db g) := by
  obtain ⟨hleg, hlaw⟩ := h
  constructor
  · intro q hq
    rw [legKB_mem_deleteLegislation] at hq
    obtain ⟨hq1, hq2⟩ := hq
    obtain ⟨⟨x, hx, hxe⟩, k, hk, hke⟩ := hleg q hq1
    refine ⟨⟨_, List.mem_map.mpr ⟨x, List.mem_filter.mpr ⟨hx, by simp [hxe, hq2]⟩, rfl⟩,
      by simpa using hxe⟩, k, hk, hke⟩
  · intro q hq
    obtain ⟨⟨x, hx, hxe⟩, k, hk, hke⟩ := hlaw q hq
    exact ⟨⟨_, List.mem_map.mpr ⟨x, hx, rfl⟩, by simpa using hxe⟩, k, hk, hke⟩

/-- `deleteLaw` preserves association referential integrity. -/
theorem assocWF_deleteLaw (db : DB) (l : Nat) (h : assocWF db) :
    assocWF (deleteLaw db l) := by
  obtain ⟨hleg, hlaw⟩ := h
  constructor
  · intro q hq
    exact hleg q hq
  · intro q hq
    rw [lawKB_mem_deleteLaw] at hq
    obtain ⟨hq1, hq2⟩ := hq
    obtain ⟨⟨x, hx, hxe⟩, k, hk, hke⟩ := hlaw q hq1
    exact ⟨⟨x, List.mem_filter.mpr ⟨hx, by simp [hxe, hq2]⟩, hxe⟩, k, hk, hke⟩

/-- `deleteKnowledgeBase` preserves association referential integrity. -/
theorem assocWF_deleteKnowledgeBase (db : DB) (dk : Nat) (h : assocWF db) :
    assocWF (deleteKnowledgeBase db dk) := by
  obtain ⟨hleg, hlaw⟩ := h
  constructor
  · intro q hq
    rw [(assoc_mem_deleteKnowledgeBase db dk q).1] at hq
    obtain ⟨hq1, hq2⟩ := hq
    obtain ⟨⟨x, hx, hxe⟩, k, hk, hke⟩ := hleg q hq1
    exact ⟨⟨x, hx, hxe⟩, k, List.mem_filter.mpr ⟨hk, by simp [hke, hq2]⟩, hke⟩
  · intro q hq
    rw [(assoc_mem_deleteKnowledgeBase db dk q).2] at hq
    obtain ⟨hq1, hq2⟩ := hq
    obtain ⟨⟨x, hx, hxe⟩, k, hk, hke⟩ := hlaw q hq1
    exact ⟨⟨x, hx, hxe⟩, k, List.mem_filter.mpr ⟨hk, by simp [hke, hq2]⟩, hke⟩

/-- A successful `insertLegislationKB` preserves association referential
integrity: the checks guarantee both ends of the new row exist. -/
theorem assocWF_insertLegislationKB (db : DB) (p : Nat × Nat) (db2 : DB)
    (h : insertLegislationKB db p = .ok db2) (hwf : assocWF db) : assocWF db2 := by
  by_cases h1 : db.legislation_knowledge_base.any (fun q => q == p) = true
  · simp [insertLegislationKB, h1] at h
  · by_cases h2 : db.legislations.all (fun x => x.id != p.1) = true
    · simp [insertLegislationKB, h1, h2] at h
    · by_cases h3 : db.knowledge_base.all (fun x => x.id != p.2) = true
      · simp [insertLegislationKB, h1, h2, h3] at h
      · simp only [insertLegislationKB] at h
        rw [if_neg h1, if_neg h2, if_neg h3] at h
        obtain rfl := (Except.ok.injEq _ _).mp h
        simp only [Bool.not_eq_true] at h2 h3
        simp only [List.all_eq_false, bne_iff_ne, ne_eq, not_not] at h2 h3
        obtain ⟨x2, hx2, hx2e⟩ := h2
        obtain ⟨x3, hx3, hx3e⟩ := h3
        obtain ⟨hleg, hlaw⟩ := hwf
        constructor
        · intro q hq
          rcases List.mem_append.mp hq with hq | hq
          · exact hleg q hq
          · obtain rfl := List.mem_singleton.mp hq
            exact ⟨⟨x2, hx2, hx2e⟩, x3, hx3, hx3e⟩
        · intro q hq
          exact hlaw q hq

/-- A successful `insertLawKB` preserves association referential
integrity. -/
theorem assocWF_insertLawKB (db : DB) (p : Nat × Nat) (db2 : DB)
    (h : insertLawKB db p = .ok db2) (hwf : assocWF db) : assocWF db2 := by
  by_cases h1 : db.law_knowledge_base.any (fun q => q == p) = true
  · simp [insertLawKB, h1] at h
  · by_cases h2 : db.laws.all (fun x => x.id != p.1) = true
    · simp [insertLawKB, h1, h2] at h
    · by_cases h3 : db.knowledge_base.all (fun x => x.id != p.2) = true
      · simp [insertLawKB, h1, h2, h3] at h
      · simp only [insertLawKB] at h
        rw [if_neg h1, if_neg h2, if_neg h3] at h
        obtain rfl := (Except.ok.injEq _ _).mp h
        simp only [Bool.not_eq_true] at h2 h3
        simp only [List.all_eq_false, bne_iff_ne, ne_eq, not_not] at h2 h3
        obtain ⟨x2, hx2, hx2e⟩ := h2
        obtain ⟨x3, hx3, hx3e⟩ := h3
        obtain ⟨hleg, hlaw⟩ := hwf
        constructor
        · intro q hq
          exact hleg q hq
        · intro q hq
          rcases List.mem_append.mp hq with hq | hq
          · exact hlaw q hq
          · obtain rfl := List.mem_singleton.mp hq
            exact ⟨⟨x2, hx2, hx2e⟩, x3, hx3, hx3e⟩

/-- An element that is not in the list makes a `== p` scan come back
false. -/
theorem any_beq_false_of_not_mem {α : Type} [BEq α] [LawfulBEq α] {l : List α} {p : α}
    (h : p ∉ l) : l.any (fun q => q == p) = false := by
  rw [List.any_eq_false]
  intro x hx
  simp only [beq_iff_eq]
  exact fun he => h (he ▸ hx)

/-- C10.  The association tables `legislation_knowledge_base` and
`law_knowledge_base` have enforced foreign keys with ON DELETE CASCADE:
inserting a pair whose legislation/law or knowledge-base end is missing is
rejected as a foreign-key violation; deleting a Legislation, Law or
KnowledgeBase row deletes exactly the association rows referencing it;
these deletes and every accepted association insert preserve the invariant
that no association row references a missing entity.  By contrast the JSON
columns `related_legislation_ids`/`related_law_ids` are unenforced: the
outcome of a knowledge-base insert is independent of their contents. -/
theorem association_tables_enforced_and_cascaded :
    (∀ db p, p ∉ db.legislation_knowledge_base →
      ((∀ g ∈ db.legislations, g.id ≠ p.1) ∨ (∀ k ∈ db.knowledge_base, k.id ≠ p.2)) →
      insertLegislationKB db p = .error .fkViolation) ∧
    (∀ db p, p ∉ db.law_knowledge_base →
      ((∀ l ∈ db.laws, l.id ≠ p.1) ∨ (∀ k ∈ db.knowledge_base, k.id ≠ p.2)) →
      insertLawKB db p = .error .fkViolation) ∧
    (∀ db g q, q ∈ (deleteLegislation db g).legislation_knowledge_base ↔
      q ∈ db.legislation_knowledge_base ∧ q.1 ≠ g) ∧
    (∀ db l q, q ∈ (deleteLaw db l).law_knowledge_base ↔
      q ∈ db.law_knowledge_base ∧ q.1 ≠ l) ∧
    (∀ db k q, (q ∈ (deleteKnowledgeBase db k).legislation_knowledge_base ↔
        q ∈ db.legislation_knowledge_base ∧ q.2 ≠ k) ∧
      (q ∈ (deleteKnowledgeBase db k).law_knowledge_base ↔
        q ∈ db.law_knowledge_base ∧ q.2 ≠ k)) ∧
    (∀ db g, assocWF db → assocWF (deleteLegislation db g)) ∧
    (∀ db l, assocWF db → assocWF (deleteLaw db l)) ∧
    (∀ db k, assocWF db → assocWF (deleteKnowledgeBase db k)) ∧
    (∀ db p db2, insertLegislationKB db p = .ok db2 → assocWF db → assocWF db2) ∧
    (∀ db p db2, insertLawKB db p = .ok db2 → assocWF db → assocWF db2) ∧
    (∀ db k ids,
      dbWriteOk (insertKnowledgeBase db { k with related_legislation_ids := ids }) =
        dbWriteOk (insertKnowledgeBase db k)) ∧
    (∀ db k ids,
      dbWriteOk (insertKnowledgeBase db { k with related_law_ids := ids }) =
        dbWriteOk (insertKnowledgeBase db k)) := by
  refine ⟨?_, ?_, legKB_mem_deleteLegislation, lawKB_mem_deleteLaw,
    assoc_mem_deleteKnowledgeBase, assocWF_deleteLegislation, assocWF_deleteLaw,
    assocWF_deleteKnowledgeBase, assocWF_insertLegislationKB, assocWF_insertLawKB,
    ?_, ?_⟩
  · rintro db p hnm (hA | hB)
    · have hdup := any_beq_false_of_not_mem hnm
      have hall : db.legislations.all (fun x => x.id != p.1) = true :=
        List.all_eq_true.mpr fun x hx => by simp [hA x hx]
      simp [insertLegislationKB, hdup, hall]
    · have hdup := any_beq_false_of_not_mem hnm
      have hall : db.knowledge_base.all (fun x => x.id != p.2) = true :=
        List.all_eq_true.mpr fun x hx => by simp [hB x hx]
      simp [insertLegislationKB, hdup, hall]
  · rintro db p hnm (hA | hB)
    · have hdup := any_beq_false_of_not_mem hnm
      have hall : db.laws.all (fun x => x.id != p.1) = true :=
        List.all_eq_true.mpr fun x hx => by simp [hA x hx]
      simp [insertLawKB, hdup, hall]
    · have hdup := any_beq_false_of_not_mem hnm
      have hall : db.knowledge_base.all (fun x => x.id != p.2) = true :=
        List.all_eq_true.mpr fun x hx => by simp [hB x hx]
      simp [insertLawKB, hdup, hall]
  · intro db k ids
    have e1 : ({ k with related_legislation_ids := ids } : KnowledgeBaseRow).id = k.id := rfl
    have e2 : ({ k with related_legislation_ids := ids } : KnowledgeBaseRow).branch_id =
      k.branch_id := rfl
    simp only [insertKnowledgeBase, e1, e2]
    split_ifs <;> rfl
  · intro db k ids
    have e1 : ({ k with related_law_ids := ids } : KnowledgeBaseRow).id = k.id := rfl
    have e2 : ({ k with related_law_ids := ids } : KnowledgeBaseRow).branch_id =
      k.branch_id := rfl
    simp only [insertKnowledgeBase, e1, e2]
    split_ifs <;> rfl

/-- Concrete database with one legislation, one law, one knowledge-base row
and one association row in each table; used to witness C10. -/
def assocDB : DB :=
  { legislations := [{ id := 1, legislation_code := "LEG-1" }]
    laws := [{ id := 1, law_code := "LAW-1" }]
    knowledge_base := [{ id := 1, title := "KB", category := "Legal" }]
    legislation_knowledge_base := [(1, 1)]
    law_knowledge_base := [(1, 1)] }

/-- Witness for C10: on `assocDB`, association inserts with a dangling end
are rejected, and the deletes leave the association tables referentially
intact. -/
theorem association_tables_enforced_and_cascaded_witness :
    insertLegislationKB assocDB (2, 1) = .error .fkViolation ∧
    insertLawKB assocDB (1, 5) = .error .fkViolation ∧
    assocWF (deleteLegislation assocDB 1) ∧
    assocWF (deleteKnowledgeBase assocDB 1) := by
  obtain ⟨t1, t2, -, -, -, t6, -, t8, -⟩ := association_tables_enforced_and_cascaded
  exact ⟨t1 assocDB (2, 1) (by decide) (Or.inl (by decide)),
    t2 assocDB (1, 5) (by decide) (Or.inr (by decide)),
    t6 assocDB 1 (by unfold assocWF; decide),
    t8 assocDB 1 (by unfold assocWF; decide)⟩

/-! ## Theorems about the knowledge-bank API model -/

/-- C5.  A knowledge-bank create whose title is absent, null or empty, whose
content is absent, null or empty, or whose category is empty, returns 422
and stores nothing: the state comes back unchanged. -/
theorem kb_create_rejects_missing_required_fields (s : ApiState) (p : KBCreate)
    (h : p.title = none ∨ p.title = some "" ∨ p.content = none ∨
      p.content = some "" ∨ p.category = some "") :
    kbCreate s p = (s, 422) := by
  rcases h with h | h | h | h | h <;>
    rcases ht : p.title with _ | t <;>
    rcases hc : p.content with _ | c <;>
    rcases hcat : p.category with _ | cat <;>
    simp_all [kbCreate]

/-- Witness for C5: a create with an empty title on the empty state returns
422 and the unchanged state. -/
theorem kb_create_rejects_missing_required_fields_witness :
    kbCreate {} { title := some "", content := some "Body", category := some "Legal" } =
      ({}, 422) :=
  kb_create_rejects_missing_required_fields {} _ (Or.inr (Or.inl rfl))
/-- The record stored by a successful create: server-assigned id plus the
payload fields. -/
def kbNewEntry (s : ApiState) (t cat c : String) (p : KBCreate) : KBEntry :=
  { id := s.next_id
    title := t
    description := p.description
    category := cat
    content := c
    tags := p.tags
    author := p.author
    status := p.status }

/-- C6.  Two valid create requests carrying the same title: the first
returns 201 and stores the record, the second returns 409 and leaves the
state unchanged, and afterwards exactly one stored record carries that
title. -/
theorem kb_create_duplicate_title_conflict (s : ApiState) (p1 p2 : KBCreate)
    (t c1 cat1 c2 cat2 : String)
    (h1t : p1.title = some t) (h1c : p1.content = some c1)
    (h1cat : p1.category = some cat1)
    (ht : t ≠ "") (hc1 : c1 ≠ "") (hcat1 : cat1 ≠ "")
    (h2t : p2.title = some t) (h2c : p2.content = some c2)
    (h2cat : p2.category = some cat2)
    (hc2 : c2 ≠ "") (hcat2 : cat2 ≠ "")
    (hfresh : ∀ e ∈ s.entries, e.title ≠ t) :
    ∃ s1, kbCreate s p1 = (s1, 201) ∧ kbCreate s1 p2 = (s1, 409) ∧
      (s1.entries.filter (fun e => e.title == t)).length = 1 := by
  have hany : s.entries.any (fun e => e.title == t) = false := by
    rw [List.any_eq_false]
    intro e he
    simp [hfresh e he]
  refine ⟨{ entries := s.entries ++ [kbNewEntry s t cat1 c1 p1],
            next_id := s.next_id + 1 }, ?_, ?_, ?_⟩
  · simp [kbCreate, kbNewEntry, h1t, h1c, h1cat, ht, hc1, hcat1, hany]
  · have hany2 : (s.entries ++ [kbNewEntry s t cat1 c1 p1]).any
        (fun e => e.title == t) = true :=
      any_true_of_mem (List.mem_append_right _ (List.mem_singleton.mpr rfl))
        (by simp [kbNewEntry])
    simp [kbCreate, h2t, h2c, h2cat, hc2, hcat2, ht, hany2]
  · rw [List.filter_append]
    have hnil : s.entries.filter (fun e => e.title == t) = [] := by
      rw [List.filter_eq_nil_iff]
      intro e he
      simp [hfresh e he]
    rw [hnil]
    simp [kbNewEntry]

/-- The create payload used in the C6 witness. -/
def dupPayload : KBCreate :=
  { title := some "Contract Law Fundamentals"
    content := some "Lorem ipsum"
    category := some "Legal Theory" }

/-- Witness for C6: on the empty state, the first create of "Contract Law
Fundamentals" returns 201 and the identical resubmission returns 409 with
exactly one stored record of that title. -/
theorem kb_create_duplicate_title_conflict_witness :
    ∃ s1, kbCreate {} dupPayload = (s1, 201) ∧ kbCreate s1 dupPayload = (s1, 409) ∧
      (s1.entries.filter (fun e => e.title == "Contract Law Fundamentals")).length = 1 :=
  kb_create_duplicate_title_conflict {} dupPayload dupPayload
    "Contract Law Fundamentals" "Lorem ipsum" "Legal Theory" "Lorem ipsum" "Legal Theory"
    rfl rfl rfl (by decide) (by decide) (by decide) rfl rfl rfl (by decide) (by decide)
    (by decide)

/-- C7.  Deleting an existing knowledge-bank record returns 204 and removes
exactly the records with that id; on the resulting state, GET of that id
returns 404 and a second DELETE returns 404 leaving the state unchanged —
idempotent-to-absent, not idempotent-to-success. -/
theorem kb_delete_then_absent (s : ApiState) (i : Nat)
    (h : ∃ e ∈ s.entries, e.id = i) :
    ∃ s1, kbDelete s i = (s1, 204) ∧
      (∀ e, e ∈ s1.entries ↔ e ∈ s.entries ∧ e.id ≠ i) ∧
      kbGet s1 i = (none, 404) ∧
      kbDelete s1 i = (s1, 404) := by
  obtain ⟨e0, he0, he0i⟩ := h
  have hany : s.entries.any (fun e => e.id == i) = true :=
    any_true_of_mem he0 (by simp [he0i])
  refine ⟨{ s with entries := s.entries.filter (fun e => e.id != i) }, ?_, ?_, ?_, ?_⟩
  · simp [kbDelete, hany]
  · intro e
    simp [List.mem_filter]
  · have hfind : (s.entries.filter (fun e => e.id != i)).find? (fun e => e.id == i) = none := by
      rw [List.find?_eq_none]
      intro x hx
      have hx2 := (List.mem_filter.mp hx).2
      simp_all
    simp [kbGet, hfind]
  · have hany2 : (s.entries.filter (fun e => e.id != i)).any (fun e => e.id == i) = false := by
      rw [List.any_eq_false]
      intro x hx
      have hx2 := (List.mem_filter.mp hx).2
      simp_all
    simp [kbDelete, hany2]

/-- State with a single stored knowledge-bank record, id 1. -/
def oneEntryState : ApiState :=
  { entries := [{ id := 1
                  title := "KB to Delete"
                  category := "Legal Theory"
                  content := "Temporary content" }]
    next_id := 2 }

/-- Witness for C7: deleting id 1 from `oneEntryState` returns 204 and the
id then answers 404 to GET and DELETE. -/
theorem kb_delete_then_absent_witness :
    ∃ s1, kbDelete oneEntryState 1 = (s1, 204) ∧
      (∀ e, e ∈ s1.entries ↔ e ∈ oneEntryState.entries ∧ e.id ≠ 1) ∧
      kbGet s1 1 = (none, 404) ∧
      kbDelete s1 1 = (s1, 404) :=
  kb_delete_then_absent oneEntryState 1 ⟨_, List.mem_singleton.mpr rfl, rfl⟩

/-- C8.  Every successful list response is an envelope whose `items` holds
at most `limit` entries (10 when the limit parameter is unspecified) and
whose `total` equals the number of all records matching the filters — an
expression independent of the skip and limit parameters. -/
theorem kb_list_envelope (s : ApiState) (f : KBFilters) (skipQ limitQ : Option Int)
    (pg : KBPage) (h : kbList s f skipQ limitQ = .ok pg) :
    pg.items.length ≤ pg.limit ∧
    (limitQ = none → pg.limit = 10) ∧
    pg.total = (s.entries.filter (kbMatches f)).length := by
  simp only [kbList] at h
  split at h
  · exact Except.noConfusion h
  · obtain rfl := (Except.ok.injEq _ _).mp h
    refine ⟨List.length_take_le _ _, fun hl => by simp [hl], rfl⟩

/-- Witness for C8: listing the one-record state with no parameters yields
the envelope with at most `limit` items and the full matching total. -/
theorem kb_list_envelope_witness :
    ∃ pg : KBPage, kbList oneEntryState {} none none = .ok pg ∧
      pg.items.length ≤ pg.limit ∧ pg.total = 1 := by
  have h : kbList oneEntryState {} none none =
      .ok { items := oneEntryState.entries, total := 1, skip := 0, limit := 10 } := rfl
  exact ⟨_, h, (kb_list_envelope _ _ _ _ _ h).1,
    ((kb_list_envelope _ _ _ _ _ h).2.2).trans (by decide)⟩

/-- C9.  A partial update changes only the fields present in the payload:
the server-assigned id and created_at are always kept, every payload field
that is absent keeps its prior value, and the empty update body `{}` on an
existing record returns 200 with the state unchanged. -/
theorem kb_partial_update_preserves_absent_fields :
    (∀ (u : KBUpdate) (e : KBEntry),
      (applyKBUpdate u e).id = e.id ∧
      (applyKBUpdate u e).created_at = e.created_at ∧
      (u.title = none → (applyKBUpdate u e).title = e.title) ∧
      (u.description = none → (applyKBUpdate u e).description = e.description) ∧
      (u.category = none → (applyKBUpdate u e).category = e.category) ∧
      (u.content = none → (applyKBUpdate u e).content = e.content) ∧
      (u.tags = none → (applyKBUpdate u e).tags = e.tags) ∧
      (u.author = none → (applyKBUpdate u e).author = e.author) ∧
      (u.status = none → (applyKBUpdate u e).status = e.status)) ∧
    (∀ (s : ApiState) (i : Nat), (∃ e ∈ s.entries, e.id = i) →
      kbUpdate s i emptyKBUpdate = (s, 200)) := by
  constructor
  · intro u e
    refine ⟨rfl, rfl, ?_, ?_, ?_, ?_, ?_, ?_, ?_⟩ <;>
      intro h <;> simp [applyKBUpdate, h]
  · rintro s i ⟨e0, he0, hei⟩
    have hany : s.entries.any (fun e => e.id == i) = true :=
      any_true_of_mem he0 (by simp [hei])
    have happ : ∀ e : KBEntry, applyKBUpdate emptyKBUpdate e = e := fun e => rfl
    simp [kbUpdate, hany, happ]

/-- Witness for C9: the empty update on the one-record state returns 200
with the state unchanged, and an update carrying only a description leaves
the title in place. -/
theorem kb_partial_update_preserves_absent_fields_witness :
    kbUpdate oneEntryState 1 emptyKBUpdate = (oneEntryState, 200) ∧
    (applyKBUpdate { description := some "Updated" }
        { id := 1, title := "Original", category := "Legal", content := "Body" }).title =
      "Original" := by
  obtain ⟨hfields, hempty⟩ := kb_partial_update_preserves_absent_fields
  exact ⟨hempty oneEntryState 1 ⟨_, List.mem_singleton.mpr rfl, rfl⟩,
    (hfields { description := some "Updated" }
      { id := 1, title := "Original", category := "Legal", content := "Body" }).2.2.1 rfl⟩
